import Mathlib

/-!
# Verification of the fallback-dispatch worker

A shallow embedding of the Cloudflare worker's AI-chat fallback dispatcher
(the `fetch` handler: prompt validation, the EdenAI / Gemini / OpenRouter
provider chain, error aggregation, HTTP statuses), of the `/get-eden-key`
route of the enhanced worker, and of the Pages function `onRequestPost` /
`onRequestGet` (chat.ts).

Outbound network behaviour is abstracted by an oracle assigning to each
provider call its observable outcome (an HTTP status together with the parsed
response fields the code reads, or a thrown exception — the 15000 ms abort
surfaces as such an exception).  Everything the worker itself computes is
translated directly from the source.
-/

namespace Worker

/-- JavaScript truthiness of `body.prompt`-style values: an absent field or
the empty string is falsy, any other string is truthy. -/
def truthyOpt : Option String → Bool
  | none => false
  | some s => s != ""

/-- JavaScript `a || dflt` for an optional string `a`: the default is used
when the field is absent or the empty string. -/
def jsOrStr (a : Option String) (dflt : String) : String :=
  match a with
  | none => dflt
  | some s => if s == "" then dflt else s

/-- `res.ok` of the fetch API: HTTP status in the range 200–299. -/
def resOk (st : Nat) : Bool := 200 ≤ st && st < 300

/-- The per-attempt timeout armed on the AbortController (milliseconds). -/
def timeoutMs : Nat := 15000

/-- The environment bindings the chat dispatcher reads (worker secrets). -/
structure Env where
  EDENAI_API_KEY : Option String
  GEMINI_API_KEY : Option String
  OPENROUTER_API_KEY : Option String
deriving DecidableEq, Repr

/-- The fields of an EdenAI 2xx response body that the code reads:
`data?.openai?.generated_text`, `data?.openai?.status`,
`data?.openai?.error?.message`. -/
structure EdenBody where
  generated_text : Option String
  status : Option String
  errMessage : Option String
deriving DecidableEq, Repr

/-- Observable outcome of the outbound EdenAI call: a response with an HTTP
status and parsed body, or a thrown exception (network failure or the
timeout abort) carrying `err.message`. -/
inductive EdenOutcome where
  | resp (status : Nat) (body : EdenBody)
  | exn (msg : String)
deriving DecidableEq, Repr

/-- Observable outcome of the outbound Gemini call: the code reads
`data?.candidates?.[0]?.content?.parts?.[0]?.text` from the JSON body and
`res.text()` as raw text, plus `res.status`. -/
inductive GeminiOutcome where
  | resp (status : Nat) (text : Option String) (rawText : String)
  | exn (msg : String)
deriving DecidableEq, Repr

/-- Observable outcome of one outbound OpenRouter call: the code reads
`data?.choices?.[0]?.message?.content` on 2xx and `errorData.error?.message`
otherwise. -/
inductive OROutcome where
  | resp (status : Nat) (content : Option String) (errMessage : Option String)
  | exn (msg : String)
deriving DecidableEq, Repr

/-- The oracle fixing, for one dispatch, what each outbound provider call
would return.  Calls are keyed by provider (and model for OpenRouter)
because each candidate is attempted at most once per dispatch. -/
structure Oracle where
  eden : EdenOutcome
  gemini : GeminiOutcome
  openrouter : String → OROutcome

/-- One entry of the `errors` array.  Absent optional fields correspond to
fields not present on the pushed object (dropped by `JSON.stringify`). -/
structure ErrorEntry where
  provider : String
  model : Option String := none
  status : Option Nat := none
  error : Option String := none
  details : Option String := none
deriving DecidableEq, Repr

/-- The body of a success response:
`{success: true, text, provider, model}`. -/
structure SuccessResp where
  text : String
  provider : String
  model : String
deriving DecidableEq, Repr

/-- One candidate of the fallback chain: EdenAI, Gemini, or one OpenRouter
model of the model loop. -/
inductive Candidate where
  | eden
  | gemini
  | openrouter (model : String)
deriving DecidableEq, Repr

/-- The provider string the success response would carry for a candidate. -/
def candProvider : Candidate → String
  | .eden => "edenai"
  | .gemini => "gemini"
  | .openrouter _ => "openrouter"

/-- The model string the success response would carry for a candidate. -/
def candModel : Candidate → String
  | .eden => "openai"
  | .gemini => "gemini-1.5-flash"
  | .openrouter m => m

/-- The `provider` field an error entry for this candidate would carry. -/
def groupName : Candidate → String
  | .eden => "EdenAI"
  | .gemini => "Gemini"
  | .openrouter _ => "OpenRouter"

/-- Result of one attempt: an early-returned success, or the list of entries
pushed onto `errors` for this candidate (empty or a singleton). -/
inductive AttemptResult where
  | success (s : SuccessResp)
  | failures (es : List ErrorEntry)
deriving DecidableEq, Repr

/-- The EdenAI branch: on `res.ok`, success iff `text && status !== "fail"`,
else push `{provider: "EdenAI", error: data?.openai?.error?.message ||
"Provider failed"}`; on non-ok push `{provider: "EdenAI", status}`; on a
thrown error push `{provider: "EdenAI", error: err.message}`. -/
def edenAttempt : EdenOutcome → AttemptResult
  | .resp st body =>
    if resOk st then
      if truthyOpt body.generated_text && body.status != some "fail" then
        .success ⟨body.generated_text.getD "", "edenai", "openai"⟩
      else
        .failures [{ provider := "EdenAI",
                     error := some (jsOrStr body.errMessage "Provider failed") }]
    else
      .failures [{ provider := "EdenAI", status := some st }]
  | .exn msg => .failures [{ provider := "EdenAI", error := some msg }]

/-- The Gemini branch: on `res.ok` with truthy text, success; otherwise push
`{provider: "Gemini", status: res.status, details: errorText}`; on a thrown
error push `{provider: "Gemini", error: err.message}`. -/
def geminiAttempt : GeminiOutcome → AttemptResult
  | .resp st text rawText =>
    if resOk st && truthyOpt text then
      .success ⟨text.getD "", "gemini", "gemini-1.5-flash"⟩
    else
      .failures [{ provider := "Gemini", status := some st, details := some rawText }]
  | .exn msg => .failures [{ provider := "Gemini", error := some msg }]

/-- One iteration of the OpenRouter model loop: on `res.ok` with truthy
content, success; on `res.ok` with missing/empty content the loop records
nothing and moves on; on non-ok push `{provider, model, status, error}`; on
a thrown error push `{provider, model, error}`. -/
def orAttempt (model : String) : OROutcome → AttemptResult
  | .resp st content errMessage =>
    if resOk st then
      if truthyOpt content then
        .success ⟨content.getD "", "openrouter", model⟩
      else
        .failures []
    else
      .failures [{ provider := "OpenRouter", model := some model,
                   status := some st, error := errMessage }]
  | .exn msg => .failures [{ provider := "OpenRouter", model := some model,
                             error := some msg }]

/-- Attempt one candidate against the oracle. -/
def attemptOf (oracle : Oracle) : Candidate → AttemptResult
  | .eden => edenAttempt oracle.eden
  | .gemini => geminiAttempt oracle.gemini
  | .openrouter m => orAttempt m (oracle.openrouter m)

/-- The OpenRouter model list: `preferredModel || "openai/gpt-4o-mini"`,
then the two fixed free models. -/
def models (preferredModel : Option String) : List String :=
  [jsOrStr preferredModel "openai/gpt-4o-mini",
   "google/gemini-2.0-flash-exp:free",
   "meta-llama/llama-3.1-8b-instruct:free"]

/-- The ordered candidate list actually executed by the dispatcher: each
provider section runs only under its `if (env.…_API_KEY)` guard, in source
order EdenAI, Gemini, then the OpenRouter model loop. -/
def candidates (env : Env) (preferredModel : Option String) : List Candidate :=
  (if truthyOpt env.EDENAI_API_KEY then [Candidate.eden] else []) ++
  (if truthyOpt env.GEMINI_API_KEY then [Candidate.gemini] else []) ++
  (if truthyOpt env.OPENROUTER_API_KEY then
    (models preferredModel).map Candidate.openrouter
  else [])

/-- What one straight-line run of the provider sections produces: the
early-returned success if any, the accumulated `errors` array, and the list
of candidates for which an outbound call was made, in order. -/
structure RunOut where
  firstSuccess : Option SuccessResp
  errors : List ErrorEntry
  attempted : List Candidate
deriving DecidableEq, Repr

/-- Sequential execution of the candidate list: each attempt either returns
(no later candidate runs) or appends its pushed entries and control falls
through to the next candidate. -/
def runCandidates (oracle : Oracle) : List Candidate → RunOut
  | [] => ⟨none, [], []⟩
  | c :: cs =>
    match attemptOf oracle c with
    | .success s => ⟨some s, [], [c]⟩
    | .failures es =>
      let o := runCandidates oracle cs
      ⟨o.firstSuccess, es ++ o.errors, c :: o.attempted⟩

/-- The JSON body of a chat-route response. -/
inductive ChatBody where
  | invalidJson
  | promptRequired
  | success (text provider model : String)
  | allFailed (details : List ErrorEntry)
deriving DecidableEq, Repr

/-- An HTTP response of the chat route: status code plus JSON body. -/
structure WorkerResponse where
  status : Nat
  body : ChatBody
deriving DecidableEq, Repr

/-- The parsed request body: `body.prompt` and `body.model`. -/
structure ReqBody where
  prompt : Option String
  model : Option String
deriving DecidableEq, Repr

/-- The chat route of the worker `fetch` handler, from the JSON-parse of the
request body (`none` = `request.json()` threw) to the final response,
together with the trace of candidates for which an outbound call was made.
Statuses: 400 for an unparsable body, 400 for a falsy prompt, default (200)
for success, 500 when all providers failed. -/
def fetchChat (env : Env) (oracle : Oracle) (reqBody : Option ReqBody) :
    WorkerResponse × List Candidate :=
  match reqBody with
  | none => (⟨400, .invalidJson⟩, [])
  | some b =>
    if truthyOpt b.prompt then
      let o := runCandidates oracle (candidates env b.model)
      match o.firstSuccess with
      | some s => (⟨200, .success s.text s.provider s.model⟩, o.attempted)
      | none => (⟨500, .allFailed o.errors⟩, o.attempted)
    else
      (⟨400, .promptRequired⟩, [])

/-- Whether attempting a candidate early-returns a success response. -/
def succeeds (oracle : Oracle) (c : Candidate) : Bool :=
  match attemptOf oracle c with
  | .success _ => true
  | .failures _ => false

/-- The entries an attempt pushes onto `errors` (empty when it returns). -/
def attemptFailures (oracle : Oracle) (c : Candidate) : List ErrorEntry :=
  match attemptOf oracle c with
  | .success _ => []
  | .failures es => es

/-- Whether the outbound call for a candidate ends in a per-candidate error
in the sense of the error taxonomy: a non-2xx transport response, or a
thrown exception (network failure or the timeout abort). -/
def isErrOutcome (oracle : Oracle) : Candidate → Bool
  | .eden =>
    match oracle.eden with
    | .resp st _ => !resOk st
    | .exn _ => true
  | .gemini =>
    match oracle.gemini with
    | .resp st _ _ => !resOk st
    | .exn _ => true
  | .openrouter m =>
    match oracle.openrouter m with
    | .resp st _ _ => !resOk st
    | .exn _ => true

/-- The candidates following the EdenAI section: the Gemini section and the
OpenRouter model loop, each under its credential guard. -/
def restAfterEden (env : Env) (preferredModel : Option String) : List Candidate :=
  (if truthyOpt env.GEMINI_API_KEY then [Candidate.gemini] else []) ++
  (if truthyOpt env.OPENROUTER_API_KEY then
    (models preferredModel).map Candidate.openrouter
  else [])

/-- The HTTP status that accompanies each chat-route body shape, as the
spec's reader would tabulate it: 400 for caller errors, 200 for success,
500 for total failure. -/
def statusForBody : ChatBody → Nat
  | .invalidJson => 400
  | .promptRequired => 400
  | .success _ _ _ => 200
  | .allFailed _ => 500

/-- The `/get-eden-key` route of the enhanced worker: a GET reply whose body
is `JSON.stringify({ apiKey: env.EDENAI_API_KEY })`. -/
structure KeyRouteBody where
  apiKey : Option String
deriving DecidableEq, Repr

/-- Body returned by the enhanced worker for `GET /get-eden-key`. -/
def getEdenKeyBody (env : Env) : KeyRouteBody :=
  ⟨env.EDENAI_API_KEY⟩

end Worker

namespace Pages

/-- The environment bindings read by the Pages function (chat.ts). -/
structure Env where
  EDENAI_API_KEY : Option String
  VITE_EDENAI_API_KEY : Option String
deriving DecidableEq, Repr

/-- JavaScript `s.trim()`: strip leading and trailing whitespace, modelled
on the character list (Lean's builtin trim is not kernel-reducible). -/
def jsTrim (s : String) : String :=
  ⟨((s.data.dropWhile Char.isWhitespace).reverse.dropWhile
      Char.isWhitespace).reverse⟩

/-- The prompt validation of `onRequestPost`: rejected when the field is
absent, falsy, or empty after trimming
(`!prompt || typeof prompt !== 'string' || prompt.trim().length === 0`). -/
def promptValid (p : Option String) : Bool :=
  match p with
  | none => false
  | some s => s != "" && (jsTrim s).length != 0

/-- The observable action of `onRequestPost` up to the worker call: either an
error response sent without contacting the worker (500 when the JSON parse
threw, 400 when the prompt is invalid), or a call to the worker carrying the
trimmed prompt. -/
inductive PostAction where
  | errorResponse (status : Nat)
  | callWorker (prompt : String)
deriving DecidableEq, Repr

/-- `onRequestPost` up to the worker call, from the JSON-parse of the request
body (`none` = `request.json()` threw, handled by the outer catch). -/
def onRequestPost (reqBody : Option Worker.ReqBody) : PostAction :=
  match reqBody with
  | none => .errorResponse 500
  | some b =>
    if promptValid b.prompt then
      .callWorker (jsTrim (b.prompt.getD ""))
    else
      .errorResponse 400

/-- JavaScript `s.slice(-4)`: the last four characters (the whole string
when shorter than four characters). -/
def sliceLast4 (s : String) : String :=
  s.drop (s.length - 4)

/-- The masking of `onRequestGet`:
`serverEdenAIKey.slice(0, 4) + '...' + serverEdenAIKey.slice(-4)`. -/
def maskedKey (k : String) : String :=
  k.take 4 ++ "..." ++ sliceLast4 k

/-- The body of the key-status reply of `onRequestGet`:
`{success: true, configured, masked}`. -/
structure KeyStatusBody where
  success : Bool
  configured : Bool
  masked : Option String
deriving DecidableEq, Repr

/-- `onRequestGet`: resolves the server key as
`env.EDENAI_API_KEY || env.VITE_EDENAI_API_KEY || ''`, reports whether it is
configured and a masked rendering (null when unconfigured). -/
def onRequestGet (env : Env) : KeyStatusBody :=
  let serverEdenAIKey := Worker.jsOrStr env.EDENAI_API_KEY
    (Worker.jsOrStr env.VITE_EDENAI_API_KEY "")
  let configured := serverEdenAIKey != ""
  ⟨true, configured, if configured then some (maskedKey serverEdenAIKey) else none⟩

end Pages

namespace Worker

/-- A successful attempt carries exactly the provider and model strings of
its candidate. -/
theorem attempt_success_shape (oracle : Oracle) (c : Candidate) (s : SuccessResp)
    (h : attemptOf oracle c = .success s) :
    s.provider = candProvider c ∧ s.model = candModel c := by
  cases c with
  | eden =>
    cases ho : oracle.eden with
    | resp st body =>
      simp only [attemptOf, edenAttempt, ho] at h
      split at h
      · split at h
        · cases h; exact ⟨rfl, rfl⟩
        · cases h
      · cases h
    | exn msg => simp [attemptOf, edenAttempt, ho] at h
  | gemini =>
    cases ho : oracle.gemini with
    | resp st text rawText =>
      simp only [attemptOf, geminiAttempt, ho] at h
      split at h
      · cases h; exact ⟨rfl, rfl⟩
      · cases h
    | exn msg => simp [attemptOf, geminiAttempt, ho] at h
  | openrouter m =>
    cases ho : oracle.openrouter m with
    | resp st content errMessage =>
      simp only [attemptOf, orAttempt, ho] at h
      split at h
      · split at h
        · cases h; exact ⟨rfl, rfl⟩
        · cases h
      · cases h
    | exn msg => simp [attemptOf, orAttempt, ho] at h

/-- An EdenAI attempt is a success carrying provider "edenai" / model
"openai", or pushes exactly one entry with provider "EdenAI". -/
theorem edenAttempt_shape (o : EdenOutcome) :
    (∃ t, edenAttempt o = .success ⟨t, "edenai", "openai"⟩) ∨
    (∃ e, edenAttempt o = .failures [e] ∧ e.provider = "EdenAI") := by
  cases o with
  | resp st body =>
    simp only [edenAttempt]
    split
    · split
      · exact .inl ⟨_, rfl⟩
      · exact .inr ⟨_, rfl, rfl⟩
    · exact .inr ⟨_, rfl, rfl⟩
  | exn msg => exact .inr ⟨_, rfl, rfl⟩

/-- A Gemini attempt is a success carrying provider "gemini" / model
"gemini-1.5-flash", or pushes exactly one entry with provider "Gemini". -/
theorem geminiAttempt_shape (o : GeminiOutcome) :
    (∃ t, geminiAttempt o = .success ⟨t, "gemini", "gemini-1.5-flash"⟩) ∨
    (∃ e, geminiAttempt o = .failures [e] ∧ e.provider = "Gemini") := by
  cases o with
  | resp st text rawText =>
    simp only [geminiAttempt]
    split
    · exact .inl ⟨_, rfl⟩
    · exact .inr ⟨_, rfl, rfl⟩
  | exn msg => exact .inr ⟨_, rfl, rfl⟩

/-- An OpenRouter attempt for model `m` is a success carrying provider
"openrouter" / model `m`, or records nothing (the silent 2xx-empty case), or
pushes exactly one entry with provider "OpenRouter" and model `m`. -/
theorem orAttempt_shape (m : String) (o : OROutcome) :
    (∃ t, orAttempt m o = .success ⟨t, "openrouter", m⟩) ∨
    orAttempt m o = .failures [] ∨
    (∃ e, orAttempt m o = .failures [e] ∧ e.provider = "OpenRouter" ∧
      e.model = some m) := by
  cases o with
  | resp st content errMessage =>
    simp only [orAttempt]
    split
    · split
      · exact .inl ⟨_, rfl⟩
      · exact .inr (.inl rfl)
    · exact .inr (.inr ⟨_, rfl, rfl, rfl⟩)
  | exn msg => exact .inr (.inr ⟨_, rfl, rfl, rfl⟩)

/-- A candidate that fails pushes entries carrying its group's provider
name. -/
theorem attemptFailures_provider (oracle : Oracle) (c : Candidate) (e : ErrorEntry)
    (h : e ∈ attemptFailures oracle c) :
    e.provider = groupName c := by
  cases c with
  | eden =>
    rcases edenAttempt_shape oracle.eden with ⟨t, hs⟩ | ⟨e', hf, hp⟩
    · simp [attemptFailures, attemptOf, hs] at h
    · simp only [attemptFailures, attemptOf, hf, List.mem_singleton] at h
      subst h; exact hp
  | gemini =>
    rcases geminiAttempt_shape oracle.gemini with ⟨t, hs⟩ | ⟨e', hf, hp⟩
    · simp [attemptFailures, attemptOf, hs] at h
    · simp only [attemptFailures, attemptOf, hf, List.mem_singleton] at h
      subst h; exact hp
  | openrouter m =>
    rcases orAttempt_shape m (oracle.openrouter m) with ⟨t, hs⟩ | hf | ⟨e', hf, hp, _⟩
    · simp [attemptFailures, attemptOf, hs] at h
    · simp [attemptFailures, attemptOf, hf] at h
    · simp only [attemptFailures, attemptOf, hf, List.mem_singleton] at h
      subst h; exact hp

/-- Running a block of failing candidates before a tail accumulates their
pushed entries and their attempts, then continues with the tail. -/
theorem runCandidates_append_of_fail (oracle : Oracle) (pre l : List Candidate)
    (h : ∀ c ∈ pre, succeeds oracle c = false) :
    runCandidates oracle (pre ++ l) =
      ⟨(runCandidates oracle l).firstSuccess,
       pre.flatMap (attemptFailures oracle) ++ (runCandidates oracle l).errors,
       pre ++ (runCandidates oracle l).attempted⟩ := by
  induction pre with
  | nil => simp
  | cons c pre ih =>
    have hc : succeeds oracle c = false := h c (by simp)
    have hpre : ∀ c' ∈ pre, succeeds oracle c' = false :=
      fun c' hc' => h c' (List.mem_cons_of_mem _ hc')
    cases hatt : attemptOf oracle c with
    | success s => simp [succeeds, hatt] at hc
    | failures es =>
      simp only [List.cons_append, runCandidates, hatt, List.append_eq]
      rw [ih hpre]
      simp [attemptFailures, hatt]

/-- The trace of attempted candidates is always an initial segment of the
candidate list. -/
theorem runCandidates_attempted_take (oracle : Oracle) (l : List Candidate) :
    ∃ n, (runCandidates oracle l).attempted = l.take n := by
  induction l with
  | nil => exact ⟨0, rfl⟩
  | cons c cs ih =>
    cases hatt : attemptOf oracle c with
    | success s => exact ⟨1, by simp [runCandidates, hatt]⟩
    | failures es =>
      obtain ⟨n, hn⟩ := ih
      exact ⟨n + 1, by simp [runCandidates, hatt, hn]⟩

/-- Any early-returned success comes from an attempt of some listed
candidate. -/
theorem runCandidates_firstSuccess_mem (oracle : Oracle) (l : List Candidate)
    (s : SuccessResp) (h : (runCandidates oracle l).firstSuccess = some s) :
    ∃ c ∈ l, attemptOf oracle c = .success s := by
  induction l with
  | nil => simp [runCandidates] at h
  | cons c cs ih =>
    cases hatt : attemptOf oracle c with
    | success s' =>
      simp only [runCandidates, hatt, Option.some.injEq] at h
      exact ⟨c, by simp, by rw [hatt, h]⟩
    | failures es =>
      simp only [runCandidates, hatt] at h
      obtain ⟨c', hc', hc's⟩ := ih h
      exact ⟨c', List.mem_cons_of_mem _ hc', hc's⟩

/-- Every accumulated error entry was pushed by the attempt of some listed
candidate. -/
theorem runCandidates_errors_mem (oracle : Oracle) (l : List Candidate)
    (e : ErrorEntry) (h : e ∈ (runCandidates oracle l).errors) :
    ∃ c ∈ l, e ∈ attemptFailures oracle c := by
  induction l with
  | nil => simp [runCandidates] at h
  | cons c cs ih =>
    cases hatt : attemptOf oracle c with
    | success s => simp [runCandidates, hatt] at h
    | failures es =>
      simp only [runCandidates, hatt, List.mem_append] at h
      rcases h with h | h
      · exact ⟨c, by simp, by simp [attemptFailures, hatt, h]⟩
      · obtain ⟨c', hc', hc'e⟩ := ih h
        exact ⟨c', List.mem_cons_of_mem _ hc', hc'e⟩

/-- When no candidate succeeds, the accumulated errors are exactly the
concatenation, in order, of the entries pushed by each candidate. -/
theorem runCandidates_errors_of_no_success (oracle : Oracle) (l : List Candidate)
    (h : (runCandidates oracle l).firstSuccess = none) :
    (runCandidates oracle l).errors = l.flatMap (attemptFailures oracle) ∧
    (runCandidates oracle l).attempted = l := by
  induction l with
  | nil => exact ⟨rfl, rfl⟩
  | cons c cs ih =>
    cases hatt : attemptOf oracle c with
    | success s => simp [runCandidates, hatt] at h
    | failures es =>
      simp only [runCandidates, hatt] at h ⊢
      obtain ⟨h1, h2⟩ := ih h
      exact ⟨by simp [h1, attemptFailures, hatt], by simp [h2]⟩

end Worker

namespace Worker

/-- A non-empty prompt string is truthy. -/
theorem truthyOpt_some_of_ne (p : String) (hp : p ≠ "") :
    truthyOpt (some p) = true := by
  simp [truthyOpt, hp]

/-- With a truthy prompt, the trace of outbound calls of the chat route is
exactly the attempted part of running the candidate list. -/
theorem fetchChat_trace (env : Env) (oracle : Oracle) (p : String)
    (pm : Option String) (hp : p ≠ "") :
    (fetchChat env oracle (some ⟨some p, pm⟩)).2 =
      (runCandidates oracle (candidates env pm)).attempted := by
  simp only [fetchChat, truthyOpt_some_of_ne p hp, if_true]
  cases (runCandidates oracle (candidates env pm)).firstSuccess <;> simp

/-- Any success response of the chat route originates from the successful
attempt of some candidate of the configured list. -/
theorem fetchChat_success_origin (env : Env) (oracle : Oracle) (p : String)
    (pm : Option String) (t pr m : String)
    (h : (fetchChat env oracle (some ⟨some p, pm⟩)).1.body = .success t pr m) :
    ∃ c ∈ candidates env pm, attemptOf oracle c = .success ⟨t, pr, m⟩ := by
  by_cases hp : truthyOpt (some p) = true
  · simp only [fetchChat, hp, if_true] at h
    cases hfs : (runCandidates oracle (candidates env pm)).firstSuccess with
    | none => simp [hfs] at h
    | some s =>
      simp only [hfs, ChatBody.success.injEq] at h
      obtain ⟨ht, hpr, hm⟩ := h
      obtain ⟨c, hc, hcs⟩ := runCandidates_firstSuccess_mem oracle _ s hfs
      refine ⟨c, hc, ?_⟩
      rw [hcs, ← ht, ← hpr, ← hm]
  · have hp' : truthyOpt (some p) = false := by
      revert hp; cases truthyOpt (some p) <;> simp
    simp [fetchChat, hp'] at h

/-- Any all-failed response of the chat route reports exactly the
accumulated error list of the run. -/
theorem fetchChat_allFailed_errors (env : Env) (oracle : Oracle) (p : String)
    (pm : Option String) (errs : List ErrorEntry) (hp : p ≠ "")
    (h : (fetchChat env oracle (some ⟨some p, pm⟩)).1.body = .allFailed errs) :
    errs = (runCandidates oracle (candidates env pm)).errors ∧
    (runCandidates oracle (candidates env pm)).firstSuccess = none := by
  simp only [fetchChat, truthyOpt_some_of_ne p hp, if_true] at h
  cases hfs : (runCandidates oracle (candidates env pm)).firstSuccess with
  | none => simp only [hfs, ChatBody.allFailed.injEq] at h; exact ⟨h.symm, rfl⟩
  | some s => simp [hfs] at h

end Worker

namespace Worker

/-- C1: for every dispatch with a non-empty prompt where some configured
candidate succeeds, the chat route returns a 200 Success whose provider and
model fields are those of the first candidate, in the fixed priority order
EdenAI, Gemini, then each OpenRouter model, whose attempt succeeds, and no
candidate after that one is attempted. -/
theorem dispatch_returns_first_successful_candidate (env : Env) (oracle : Oracle)
    (p : String) (pm : Option String) (pre post : List Candidate) (c : Candidate)
    (hp : p ≠ "")
    (hsplit : candidates env pm = pre ++ c :: post)
    (hpre : ∀ c' ∈ pre, succeeds oracle c' = false)
    (hc : succeeds oracle c = true) :
    ∃ t, fetchChat env oracle (some ⟨some p, pm⟩) =
      (⟨200, ChatBody.success t (candProvider c) (candModel c)⟩, pre ++ [c]) := by
  obtain ⟨s, hs⟩ : ∃ s, attemptOf oracle c = .success s := by
    revert hc
    unfold succeeds
    cases attemptOf oracle c <;> simp
  obtain ⟨hprov, hmod⟩ := attempt_success_shape oracle c s hs
  refine ⟨s.text, ?_⟩
  simp only [fetchChat, truthyOpt_some_of_ne p hp, if_true]
  rw [hsplit, runCandidates_append_of_fail oracle pre (c :: post) hpre]
  simp [runCandidates, hs, hprov, hmod]

/-- Witness for C1: EdenAI configured but throwing, Gemini configured and
succeeding — the dispatch returns Gemini's success after attempting exactly
EdenAI then Gemini, leaving the OpenRouter models untried. -/
theorem dispatch_returns_first_successful_candidate_witness :
    ∃ t, fetchChat ⟨some "ek", some "gk", some "ok"⟩
        ⟨.exn "boom", .resp 200 (some "Hi there") "", fun _ => .exn "down"⟩
        (some ⟨some "Hello", none⟩) =
      (⟨200, ChatBody.success t (candProvider .gemini) (candModel .gemini)⟩,
       [Candidate.eden] ++ [Candidate.gemini]) :=
  dispatch_returns_first_successful_candidate
    ⟨some "ek", some "gk", some "ok"⟩
    ⟨.exn "boom", .resp 200 (some "Hi there") "", fun _ => .exn "down"⟩
    "Hello" none [Candidate.eden]
    ((models none).map Candidate.openrouter) .gemini
    (by decide) (by decide) (by decide) (by decide)

/-- C4: with zero configured providers, a dispatch with a valid prompt
returns the structured all-failed response with an empty details list and
makes no outbound call. -/
theorem dispatch_zero_providers_empty_details (env : Env) (oracle : Oracle)
    (p : String) (pm : Option String)
    (hE : truthyOpt env.EDENAI_API_KEY = false)
    (hG : truthyOpt env.GEMINI_API_KEY = false)
    (hO : truthyOpt env.OPENROUTER_API_KEY = false)
    (hp : p ≠ "") :
    fetchChat env oracle (some ⟨some p, pm⟩) = (⟨500, ChatBody.allFailed []⟩, []) := by
  have hcs : candidates env pm = [] := by simp [candidates, hE, hG, hO]
  simp [fetchChat, truthyOpt_some_of_ne p hp, hcs, runCandidates]

/-- Witness for C4: no credential set (one present but empty, hence falsy)
and a live prompt produce the empty all-failed result. -/
theorem dispatch_zero_providers_empty_details_witness :
    fetchChat ⟨none, some "", none⟩ ⟨.exn "e", .exn "e", fun _ => .exn "e"⟩
        (some ⟨some "Hello", none⟩) =
      (⟨500, ChatBody.allFailed []⟩, []) :=
  dispatch_zero_providers_empty_details ⟨none, some "", none⟩
    ⟨.exn "e", .exn "e", fun _ => .exn "e"⟩ "Hello" none
    (by decide) (by decide) (by decide) (by decide)

/-- C9: candidate order is a deterministic function of the configuration and
the preferred-model hint — every dispatch attempts an initial segment of the
fixed list `candidates env pm` — and the OpenRouter sub-list is exactly the
caller's preferred model (the fixed default when the hint is absent)
followed by the two fixed free backup models. -/
theorem dispatch_order_deterministic (env : Env) (oracle : Oracle)
    (p : String) (pm : Option String) :
    (∀ m, pm = some m → m ≠ "" →
      models pm = [m, "google/gemini-2.0-flash-exp:free",
        "meta-llama/llama-3.1-8b-instruct:free"]) ∧
    models none = ["openai/gpt-4o-mini", "google/gemini-2.0-flash-exp:free",
      "meta-llama/llama-3.1-8b-instruct:free"] ∧
    ∃ n, (fetchChat env oracle (some ⟨some p, pm⟩)).2 = (candidates env pm).take n := by
  refine ⟨?_, rfl, ?_⟩
  · intro m hm hne
    subst hm
    simp [models, jsOrStr, hne]
  · by_cases hp : p = ""
    · refine ⟨0, ?_⟩
      subst hp
      simp [fetchChat, truthyOpt]
    · obtain ⟨n, hn⟩ := runCandidates_attempted_take oracle (candidates env pm)
      exact ⟨n, by rw [fetchChat_trace env oracle p pm hp, hn]⟩

/-- Witness for C9: with a caller-supplied preferred model the OpenRouter
sub-list starts with it, and a concrete dispatch's trace is an initial
segment of the fixed candidate list. -/
theorem dispatch_order_deterministic_witness :
    models (some "my/model") = ["my/model", "google/gemini-2.0-flash-exp:free",
      "meta-llama/llama-3.1-8b-instruct:free"] ∧
    ∃ n, (fetchChat ⟨some "ek", none, some "ok"⟩
        ⟨.exn "boom", .exn "boom", fun _ => .exn "down"⟩
        (some ⟨some "Hello", some "my/model"⟩)).2 =
      (candidates ⟨some "ek", none, some "ok"⟩ (some "my/model")).take n :=
  ⟨(dispatch_order_deterministic ⟨some "ek", none, some "ok"⟩
      ⟨.exn "boom", .exn "boom", fun _ => .exn "down"⟩
      "Hello" (some "my/model")).1 "my/model" rfl (by decide),
   (dispatch_order_deterministic ⟨some "ek", none, some "ok"⟩
      ⟨.exn "boom", .exn "boom", fun _ => .exn "down"⟩
      "Hello" (some "my/model")).2.2⟩

/-- C10: the HTTP status codes of the chat route pair with the body shapes
exactly as 400 for caller errors (unparsable body, missing prompt), 200 for
the `{success: true, text, provider, model}` body, and 500 for the all-failed
body, for every environment, provider behaviour and request. -/
theorem response_status_codes (env : Env) (oracle : Oracle)
    (reqBody : Option ReqBody) :
    (fetchChat env oracle reqBody).1.status =
      statusForBody (fetchChat env oracle reqBody).1.body := by
  match reqBody with
  | none => rfl
  | some b =>
    by_cases hp : truthyOpt b.prompt = true
    · simp only [fetchChat, hp, if_true]
      cases (runCandidates oracle (candidates env b.model)).firstSuccess <;> rfl
    · have hp' : truthyOpt b.prompt = false := by
        revert hp; cases truthyOpt b.prompt <;> simp
      simp [fetchChat, hp', statusForBody]

end Worker

namespace Worker

/-- Without a truthy EdenAI credential, EdenAI is not in the candidate
list. -/
theorem eden_not_mem_candidates (env : Env) (pm : Option String)
    (hE : truthyOpt env.EDENAI_API_KEY = false) :
    Candidate.eden ∉ candidates env pm := by
  simp only [candidates, hE]
  split_ifs <;> simp_all [models]

/-- Without a truthy Gemini credential, Gemini is not in the candidate
list. -/
theorem gemini_not_mem_candidates (env : Env) (pm : Option String)
    (hG : truthyOpt env.GEMINI_API_KEY = false) :
    Candidate.gemini ∉ candidates env pm := by
  simp only [candidates, hG]
  split_ifs <;> simp_all [models]

/-- Without a truthy OpenRouter credential, no OpenRouter model is in the
candidate list. -/
theorem openrouter_not_mem_candidates (env : Env) (pm : Option String)
    (hO : truthyOpt env.OPENROUTER_API_KEY = false) (m : String) :
    Candidate.openrouter m ∉ candidates env pm := by
  simp only [candidates, hO]
  split_ifs <;> simp_all [models]

/-- The only candidate whose error entries say "EdenAI" is EdenAI. -/
theorem groupName_eq_eden (c : Candidate) (h : groupName c = "EdenAI") :
    c = Candidate.eden := by
  cases c <;> simp_all [groupName]

/-- The only candidate whose error entries say "Gemini" is Gemini. -/
theorem groupName_eq_gemini (c : Candidate) (h : groupName c = "Gemini") :
    c = Candidate.gemini := by
  cases c <;> simp_all [groupName]

/-- The only candidates whose error entries say "OpenRouter" are the
OpenRouter models. -/
theorem groupName_eq_openrouter (c : Candidate) (h : groupName c = "OpenRouter") :
    ∃ m, c = Candidate.openrouter m := by
  cases c <;> simp_all [groupName]

/-- C7: the dispatch is total over its failure modes — with a valid prompt
it always resolves to a structured response (a 200 success or the 500
all-failed report collecting every candidate's pushed entries), and every
candidate whose call ends in a per-candidate error (non-2xx status, or a
thrown exception — which is how the 15000 ms abort surfaces) contributes
exactly one recorded failure entry. -/
theorem dispatch_total_structured_errors (env : Env) (oracle : Oracle)
    (p : String) (pm : Option String) (hp : p ≠ "") :
    ((∃ t pr m, (fetchChat env oracle (some ⟨some p, pm⟩)).1 =
        ⟨200, ChatBody.success t pr m⟩) ∨
      (fetchChat env oracle (some ⟨some p, pm⟩)).1 =
        ⟨500, ChatBody.allFailed
          ((candidates env pm).flatMap (attemptFailures oracle))⟩) ∧
    ∀ c, isErrOutcome oracle c = true → (attemptFailures oracle c).length = 1 := by
  constructor
  · simp only [fetchChat, truthyOpt_some_of_ne p hp, if_true]
    cases hfs : (runCandidates oracle (candidates env pm)).firstSuccess with
    | some s => exact .inl ⟨s.text, s.provider, s.model, rfl⟩
    | none =>
      obtain ⟨herr, _⟩ := runCandidates_errors_of_no_success oracle _ hfs
      exact .inr (by rw [← herr])
  · intro c hc
    cases c with
    | eden =>
      cases ho : oracle.eden with
      | resp st body =>
        simp only [isErrOutcome, ho, Bool.not_eq_true'] at hc
        simp [attemptFailures, attemptOf, edenAttempt, ho, hc]
      | exn msg => simp [attemptFailures, attemptOf, edenAttempt, ho]
    | gemini =>
      cases ho : oracle.gemini with
      | resp st text rawText =>
        simp only [isErrOutcome, ho, Bool.not_eq_true'] at hc
        simp [attemptFailures, attemptOf, geminiAttempt, ho, hc]
      | exn msg => simp [attemptFailures, attemptOf, geminiAttempt, ho]
    | openrouter m =>
      cases ho : oracle.openrouter m with
      | resp st content errMessage =>
        simp only [isErrOutcome, ho, Bool.not_eq_true'] at hc
        simp [attemptFailures, attemptOf, orAttempt, ho, hc]
      | exn msg => simp [attemptFailures, attemptOf, orAttempt, ho]

/-- Witness for C7: one configured provider whose call throws — the dispatch
resolves to the structured all-failed report, and the erroring candidate has
exactly one recorded entry. -/
theorem dispatch_total_structured_errors_witness :
    ((∃ t pr m, (fetchChat ⟨some "ek", none, none⟩
        ⟨.exn "fetch timeout", .exn "x", fun _ => .exn "x"⟩
        (some ⟨some "Hello", none⟩)).1 = ⟨200, ChatBody.success t pr m⟩) ∨
      (fetchChat ⟨some "ek", none, none⟩
        ⟨.exn "fetch timeout", .exn "x", fun _ => .exn "x"⟩
        (some ⟨some "Hello", none⟩)).1 =
        ⟨500, ChatBody.allFailed
          ((candidates ⟨some "ek", none, none⟩ none).flatMap
            (attemptFailures ⟨.exn "fetch timeout", .exn "x", fun _ => .exn "x"⟩))⟩) ∧
    ∀ c, isErrOutcome ⟨.exn "fetch timeout", .exn "x", fun _ => .exn "x"⟩ c = true →
      (attemptFailures ⟨.exn "fetch timeout", .exn "x", fun _ => .exn "x"⟩ c).length = 1 :=
  dispatch_total_structured_errors ⟨some "ek", none, none⟩
    ⟨.exn "fetch timeout", .exn "x", fun _ => .exn "x"⟩ "Hello" none (by decide)

/-- C8: a provider group with no truthy credential is skipped entirely: it
is never attempted, and an all-failed response carries no entry naming it. -/
theorem unconfigured_provider_skipped (env : Env) (oracle : Oracle)
    (p : String) (pm : Option String) (hp : p ≠ "") :
    (truthyOpt env.EDENAI_API_KEY = false →
      Candidate.eden ∉ (fetchChat env oracle (some ⟨some p, pm⟩)).2 ∧
      ∀ errs, (fetchChat env oracle (some ⟨some p, pm⟩)).1.body =
          ChatBody.allFailed errs → ∀ e ∈ errs, e.provider ≠ "EdenAI") ∧
    (truthyOpt env.GEMINI_API_KEY = false →
      Candidate.gemini ∉ (fetchChat env oracle (some ⟨some p, pm⟩)).2 ∧
      ∀ errs, (fetchChat env oracle (some ⟨some p, pm⟩)).1.body =
          ChatBody.allFailed errs → ∀ e ∈ errs, e.provider ≠ "Gemini") ∧
    (truthyOpt env.OPENROUTER_API_KEY = false →
      (∀ m, Candidate.openrouter m ∉ (fetchChat env oracle (some ⟨some p, pm⟩)).2) ∧
      ∀ errs, (fetchChat env oracle (some ⟨some p, pm⟩)).1.body =
          ChatBody.allFailed errs → ∀ e ∈ errs, e.provider ≠ "OpenRouter") := by
  have hmemtr : ∀ c, c ∈ (fetchChat env oracle (some ⟨some p, pm⟩)).2 →
      c ∈ candidates env pm := by
    rw [fetchChat_trace env oracle p pm hp]
    obtain ⟨n, hn⟩ := runCandidates_attempted_take oracle (candidates env pm)
    rw [hn]
    exact fun c h => List.take_subset n _ h
  have herrs : ∀ errs, (fetchChat env oracle (some ⟨some p, pm⟩)).1.body =
      ChatBody.allFailed errs → ∀ e ∈ errs,
      ∃ c ∈ candidates env pm, e.provider = groupName c := by
    intro errs hb e he
    obtain ⟨heq, _⟩ := fetchChat_allFailed_errors env oracle p pm errs hp hb
    rw [heq] at he
    obtain ⟨c, hc, hce⟩ := runCandidates_errors_mem oracle _ e he
    exact ⟨c, hc, attemptFailures_provider oracle c e hce⟩
  refine ⟨fun hE => ⟨?_, ?_⟩, fun hG => ⟨?_, ?_⟩, fun hO => ⟨?_, ?_⟩⟩
  · exact fun hmem => eden_not_mem_candidates env pm hE (hmemtr _ hmem)
  · intro errs hb e he hprov
    obtain ⟨c, hc, hgn⟩ := herrs errs hb e he
    rw [hprov] at hgn
    rw [groupName_eq_eden c hgn.symm] at hc
    exact eden_not_mem_candidates env pm hE hc
  · exact fun hmem => gemini_not_mem_candidates env pm hG (hmemtr _ hmem)
  · intro errs hb e he hprov
    obtain ⟨c, hc, hgn⟩ := herrs errs hb e he
    rw [hprov] at hgn
    rw [groupName_eq_gemini c hgn.symm] at hc
    exact gemini_not_mem_candidates env pm hG hc
  · exact fun m hmem => openrouter_not_mem_candidates env pm hO m (hmemtr _ hmem)
  · intro errs hb e he hprov
    obtain ⟨c, hc, hgn⟩ := herrs errs hb e he
    rw [hprov] at hgn
    obtain ⟨m, hm⟩ := groupName_eq_openrouter c hgn.symm
    rw [hm] at hc
    exact openrouter_not_mem_candidates env pm hO m hc

/-- Witness for C8: only Gemini configured and failing — EdenAI and the
OpenRouter models are neither attempted nor reported. -/
theorem unconfigured_provider_skipped_witness :
    (truthyOpt (Env.mk none (some "gk") none).EDENAI_API_KEY = false →
      Candidate.eden ∉ (fetchChat ⟨none, some "gk", none⟩
        ⟨.exn "x", .resp 500 none "server error", fun _ => .exn "x"⟩
        (some ⟨some "Hello", none⟩)).2 ∧
      ∀ errs, (fetchChat ⟨none, some "gk", none⟩
          ⟨.exn "x", .resp 500 none "server error", fun _ => .exn "x"⟩
          (some ⟨some "Hello", none⟩)).1.body = ChatBody.allFailed errs →
        ∀ e ∈ errs, e.provider ≠ "EdenAI") ∧
    (truthyOpt (Env.mk none (some "gk") none).GEMINI_API_KEY = false →
      Candidate.gemini ∉ (fetchChat ⟨none, some "gk", none⟩
        ⟨.exn "x", .resp 500 none "server error", fun _ => .exn "x"⟩
        (some ⟨some "Hello", none⟩)).2 ∧
      ∀ errs, (fetchChat ⟨none, some "gk", none⟩
          ⟨.exn "x", .resp 500 none "server error", fun _ => .exn "x"⟩
          (some ⟨some "Hello", none⟩)).1.body = ChatBody.allFailed errs →
        ∀ e ∈ errs, e.provider ≠ "Gemini") ∧
    (truthyOpt (Env.mk none (some "gk") none).OPENROUTER_API_KEY = false →
      (∀ m, Candidate.openrouter m ∉ (fetchChat ⟨none, some "gk", none⟩
        ⟨.exn "x", .resp 500 none "server error", fun _ => .exn "x"⟩
        (some ⟨some "Hello", none⟩)).2) ∧
      ∀ errs, (fetchChat ⟨none, some "gk", none⟩
          ⟨.exn "x", .resp 500 none "server error", fun _ => .exn "x"⟩
          (some ⟨some "Hello", none⟩)).1.body = ChatBody.allFailed errs →
        ∀ e ∈ errs, e.provider ≠ "OpenRouter") :=
  unconfigured_provider_skipped ⟨none, some "gk", none⟩
    ⟨.exn "x", .resp 500 none "server error", fun _ => .exn "x"⟩
    "Hello" none (by decide)

end Worker

namespace Worker

/-- C2: when EdenAI answers HTTP 200 with the embedded `status: "fail"`
indicator, the dispatcher does not return it as a Success — the attempt
pushes exactly one EdenAI failure entry, the run continues with the
remaining candidates, and no success response of this dispatch carries
provider "edenai". -/
theorem eden_embedded_fail_not_success (env : Env) (oracle : Oracle)
    (p : String) (pm : Option String) (st : Nat) (body : EdenBody)
    (hE : truthyOpt env.EDENAI_API_KEY = true) (_hp : p ≠ "")
    (ho : oracle.eden = .resp st body) (hok : resOk st = true)
    (hfail : body.status = some "fail") :
    attemptOf oracle Candidate.eden =
      .failures [{ provider := "EdenAI",
                   error := some (jsOrStr body.errMessage "Provider failed") }] ∧
    runCandidates oracle (candidates env pm) =
      ⟨(runCandidates oracle (restAfterEden env pm)).firstSuccess,
       { provider := "EdenAI",
         error := some (jsOrStr body.errMessage "Provider failed") } ::
         (runCandidates oracle (restAfterEden env pm)).errors,
       Candidate.eden :: (runCandidates oracle (restAfterEden env pm)).attempted⟩ ∧
    ∀ t pr m, (fetchChat env oracle (some ⟨some p, pm⟩)).1.body =
      ChatBody.success t pr m → pr ≠ "edenai" := by
  have hatt : attemptOf oracle Candidate.eden =
      .failures [{ provider := "EdenAI",
                   error := some (jsOrStr body.errMessage "Provider failed") }] := by
    simp [attemptOf, edenAttempt, ho, hok, hfail]
  have hcs : candidates env pm = Candidate.eden :: restAfterEden env pm := by
    simp [candidates, restAfterEden, hE]
  refine ⟨hatt, ?_, ?_⟩
  · rw [hcs]
    simp [runCandidates, hatt]
  · intro t pr m hb
    obtain ⟨c, _, hsucc⟩ := fetchChat_success_origin env oracle p pm t pr m hb
    have hpr := (attempt_success_shape oracle c _ hsucc).1
    cases c with
    | eden => rw [hatt] at hsucc; simp at hsucc
    | gemini =>
      intro hcontra
      rw [hcontra] at hpr
      simp [candProvider] at hpr
    | openrouter m' =>
      intro hcontra
      rw [hcontra] at hpr
      simp [candProvider] at hpr

/-- Witness for C2: a concrete 200-with-`status: "fail"` EdenAI body is
recorded as one failure entry and yields no "edenai" success. -/
theorem eden_embedded_fail_not_success_witness :
    attemptOf ⟨.resp 200 ⟨some "text", some "fail", some "quota exceeded"⟩,
        .exn "g", fun _ => .exn "o"⟩ Candidate.eden =
      .failures [{ provider := "EdenAI", error := some "quota exceeded" }] ∧
    ∀ t pr m, (fetchChat ⟨some "ek", none, none⟩
        ⟨.resp 200 ⟨some "text", some "fail", some "quota exceeded"⟩,
         .exn "g", fun _ => .exn "o"⟩
        (some ⟨some "Hello", none⟩)).1.body = ChatBody.success t pr m →
      pr ≠ "edenai" :=
  ⟨(eden_embedded_fail_not_success ⟨some "ek", none, none⟩
      ⟨.resp 200 ⟨some "text", some "fail", some "quota exceeded"⟩,
       .exn "g", fun _ => .exn "o"⟩
      "Hello" none 200 ⟨some "text", some "fail", some "quota exceeded"⟩
      (by decide) (by decide) rfl (by decide) rfl).1,
   (eden_embedded_fail_not_success ⟨some "ek", none, none⟩
      ⟨.resp 200 ⟨some "text", some "fail", some "quota exceeded"⟩,
       .exn "g", fun _ => .exn "o"⟩
      "Hello" none 200 ⟨some "text", some "fail", some "quota exceeded"⟩
      (by decide) (by decide) rfl (by decide) rfl).2.2⟩

end Worker

namespace Worker

/-- Counterexample to C3: with only OpenRouter configured and every model
answering HTTP 200 with no content, three candidates are attempted yet zero
failure entries are recorded and no success is returned — the silent-skip of
the OpenRouter 2xx-empty case, not one AttemptOutcome per candidate. -/
theorem openrouter_empty_records_no_entry_cex :
    fetchChat ⟨none, none, some "ok"⟩
        ⟨.exn "x", .exn "x", fun _ => .resp 200 none none⟩
        (some ⟨some "Hello", none⟩) =
      (⟨500, ChatBody.allFailed []⟩,
       [Candidate.openrouter "openai/gpt-4o-mini",
        Candidate.openrouter "google/gemini-2.0-flash-exp:free",
        Candidate.openrouter "meta-llama/llama-3.1-8b-instruct:free"]) ∧
    attemptFailures ⟨.exn "x", .exn "x", fun _ => .resp 200 none none⟩
      (Candidate.openrouter "openai/gpt-4o-mini") = [] ∧
    succeeds ⟨.exn "x", .exn "x", fun _ => .resp 200 none none⟩
      (Candidate.openrouter "openai/gpt-4o-mini") = false :=
  ⟨by decide, by decide, by decide⟩

/-- C3 as amended: an EdenAI or Gemini attempt produces exactly one outcome
(a Success or exactly one pushed entry), and an OpenRouter attempt does so
on success, non-2xx status or exception — but an OpenRouter attempt whose
transport succeeds with missing/empty content records nothing at all. -/
theorem attempt_outcome_counts (oracle : Oracle) (m : String) :
    ((∃ s, attemptOf oracle Candidate.eden = .success s) ∨
      (∃ e, attemptOf oracle Candidate.eden = .failures [e])) ∧
    ((∃ s, attemptOf oracle Candidate.gemini = .success s) ∨
      (∃ e, attemptOf oracle Candidate.gemini = .failures [e])) ∧
    (∀ st content errMessage, oracle.openrouter m = .resp st content errMessage →
      resOk st = true → truthyOpt content = false →
      attemptOf oracle (Candidate.openrouter m) = .failures []) ∧
    (isErrOutcome oracle (Candidate.openrouter m) = true →
      ∃ e, attemptOf oracle (Candidate.openrouter m) = .failures [e]) := by
  refine ⟨?_, ?_, ?_, ?_⟩
  · rcases edenAttempt_shape oracle.eden with ⟨t, hs⟩ | ⟨e, hf, _⟩
    · exact .inl ⟨_, hs⟩
    · exact .inr ⟨e, hf⟩
  · rcases geminiAttempt_shape oracle.gemini with ⟨t, hs⟩ | ⟨e, hf, _⟩
    · exact .inl ⟨_, hs⟩
    · exact .inr ⟨e, hf⟩
  · intro st content errMessage ho hok hempty
    simp [attemptOf, orAttempt, ho, hok, hempty]
  · intro herr
    cases ho : oracle.openrouter m with
    | resp st content errMessage =>
      simp only [isErrOutcome, ho, Bool.not_eq_true'] at herr
      exact ⟨{ provider := "OpenRouter", model := some m,
               status := some st, error := errMessage },
        by simp [attemptOf, orAttempt, ho, herr]⟩
    | exn msg =>
      exact ⟨{ provider := "OpenRouter", model := some m, error := some msg },
        by simp [attemptOf, orAttempt, ho]⟩

/-- Witness for the amended C3: a 200-empty OpenRouter model records
nothing, while a 500 model records exactly one entry. -/
theorem attempt_outcome_counts_witness :
    attemptOf ⟨.exn "x", .exn "x",
        fun m => if m == "m1" then .resp 200 none none
          else .resp 500 none (some "bad")⟩ (Candidate.openrouter "m1") =
      .failures [] ∧
    ∃ e, attemptOf ⟨.exn "x", .exn "x",
        fun m => if m == "m1" then .resp 200 none none
          else .resp 500 none (some "bad")⟩ (Candidate.openrouter "m2") =
      .failures [e] :=
  ⟨(attempt_outcome_counts ⟨.exn "x", .exn "x",
      fun m => if m == "m1" then .resp 200 none none
        else .resp 500 none (some "bad")⟩ "m1").2.2.1
      200 none none (by decide) (by decide) (by decide),
   (attempt_outcome_counts ⟨.exn "x", .exn "x",
      fun m => if m == "m1" then .resp 200 none none
        else .resp 500 none (some "bad")⟩ "m2").2.2.2 (by decide)⟩

/-- Counterexample to C5: the `/get-eden-key` route of the enhanced worker
returns a body whose `apiKey` field is the EdenAI credential itself — the
credential is echoed verbatim to the caller. -/
theorem get_eden_key_echoes_credential_cex :
    (getEdenKeyBody ⟨some "SECRET-EDEN-KEY-VALUE", none, none⟩).apiKey =
      some "SECRET-EDEN-KEY-VALUE" := rfl

/-- C5 as amended: the chat dispatch route never echoes a credential — its
entire response is invariant under changing the credential values while
preserving which ones are configured — but the enhanced worker's
`/get-eden-key` route does return the EdenAI credential verbatim. -/
theorem credentials_not_in_dispatch_responses (env env' : Env) (oracle : Oracle)
    (reqBody : Option ReqBody)
    (hE : truthyOpt env.EDENAI_API_KEY = truthyOpt env'.EDENAI_API_KEY)
    (hG : truthyOpt env.GEMINI_API_KEY = truthyOpt env'.GEMINI_API_KEY)
    (hO : truthyOpt env.OPENROUTER_API_KEY = truthyOpt env'.OPENROUTER_API_KEY) :
    fetchChat env oracle reqBody = fetchChat env' oracle reqBody ∧
    getEdenKeyBody env = ⟨env.EDENAI_API_KEY⟩ := by
  have hcs : ∀ pm, candidates env pm = candidates env' pm := by
    intro pm
    simp [candidates, hE, hG, hO]
  refine ⟨?_, rfl⟩
  match reqBody with
  | none => rfl
  | some b => simp [fetchChat, hcs b.model]

/-- Witness for the amended C5: swapping every credential for a different
value leaves a concrete dispatch's response unchanged. -/
theorem credentials_not_in_dispatch_responses_witness :
    fetchChat ⟨some "keyA", some "keyB", none⟩
        ⟨.exn "x", .resp 200 (some "Hi") "", fun _ => .exn "x"⟩
        (some ⟨some "Hello", none⟩) =
      fetchChat ⟨some "otherA", some "otherB", none⟩
        ⟨.exn "x", .resp 200 (some "Hi") "", fun _ => .exn "x"⟩
        (some ⟨some "Hello", none⟩) ∧
    getEdenKeyBody ⟨some "keyA", some "keyB", none⟩ = ⟨some "keyA"⟩ :=
  credentials_not_in_dispatch_responses ⟨some "keyA", some "keyB", none⟩
    ⟨some "otherA", some "otherB", none⟩
    ⟨.exn "x", .resp 200 (some "Hi") "", fun _ => .exn "x"⟩
    (some ⟨some "Hello", none⟩) (by decide) (by decide) (by decide)

/-- Counterexample to C6: a whitespace-only prompt is empty after trimming,
yet the worker's `!prompt` check accepts it — the dispatch contacts the
configured provider (one outbound call, one recorded failure) and answers
500, not an immediate caller error with zero outbound calls. -/
theorem whitespace_prompt_dispatches_cex :
    Pages.jsTrim " " = "" ∧
    fetchChat ⟨some "ek", none, none⟩
        ⟨.exn "network down", .exn "x", fun _ => .exn "x"⟩
        (some ⟨some " ", none⟩) =
      (⟨500, ChatBody.allFailed [{ provider := "EdenAI",
                                   error := some "network down" }]⟩,
       [Candidate.eden]) :=
  ⟨by decide, by decide⟩

/-- C6 as amended: a missing or empty-string prompt is rejected by the
worker with an immediate 400 and zero outbound calls, and the Pages
function's own validation additionally rejects any prompt that is blank
after trimming before the worker is contacted; but the worker itself
accepts a whitespace-only prompt. -/
theorem falsy_prompt_rejected_no_calls (env : Env) (oracle : Oracle)
    (pm : Option String) :
    fetchChat env oracle (some ⟨none, pm⟩) = (⟨400, ChatBody.promptRequired⟩, []) ∧
    fetchChat env oracle (some ⟨some "", pm⟩) =
      (⟨400, ChatBody.promptRequired⟩, []) ∧
    ∀ p : String, Pages.jsTrim p = "" →
      Pages.onRequestPost (some ⟨some p, pm⟩) = Pages.PostAction.errorResponse 400 := by
  refine ⟨by simp [fetchChat, truthyOpt], by simp [fetchChat, truthyOpt], ?_⟩
  intro p hp
  simp [Pages.onRequestPost, Pages.promptValid, hp]

/-- Witness for the amended C6: missing and empty prompts get 400 from the
worker with no outbound calls, and a two-space prompt is stopped at the
Pages layer. -/
theorem falsy_prompt_rejected_no_calls_witness :
    fetchChat ⟨some "ek", none, none⟩ ⟨.exn "x", .exn "x", fun _ => .exn "x"⟩
        (some ⟨none, none⟩) = (⟨400, ChatBody.promptRequired⟩, []) ∧
    fetchChat ⟨some "ek", none, none⟩ ⟨.exn "x", .exn "x", fun _ => .exn "x"⟩
        (some ⟨some "", none⟩) = (⟨400, ChatBody.promptRequired⟩, []) ∧
    Pages.onRequestPost (some ⟨some "  ", none⟩) =
      Pages.PostAction.errorResponse 400 :=
  ⟨(falsy_prompt_rejected_no_calls ⟨some "ek", none, none⟩
      ⟨.exn "x", .exn "x", fun _ => .exn "x"⟩ none).1,
   (falsy_prompt_rejected_no_calls ⟨some "ek", none, none⟩
      ⟨.exn "x", .exn "x", fun _ => .exn "x"⟩ none).2.1,
   (falsy_prompt_rejected_no_calls ⟨some "ek", none, none⟩
      ⟨.exn "x", .exn "x", fun _ => .exn "x"⟩ none).2.2 "  " (by decide)⟩

end Worker
